import Mathlib

/-!
Verification of the AI-Powered-Security-Cam AI engine (ai-engine/app).

The Python modules are shallowly embedded:
- audio_engine.py: the cooldown state machine of AudioListener._handle_detection
  and the amplitude-band descriptions, together with the stop/_cleanup teardown.
- vision_engine.py: the frame-skip bookkeeping of CameraHandler._capture_loop,
  the crop slicing of _process_frame (with the slice semantics of Python and
  numpy made explicit), _encode_image, CameraHandler.stop, and the
  VisionEngine/AudioEngine registry add operation.
- service_connector.py: ServiceConnector.send_alert over an abstract HTTP
  outcome (response status, request error, or unexpected exception).
- main.py: the sync_visual_callback / sync_audio_callback dispatchers, with
  the semantics of asyncio.create_task (which requires a running event loop
  in the calling thread) made explicit.

External effects (clock reads, HTTP transport, camera and microphone reads,
JPEG encoding) are passed in as explicit arguments, so that every definition
stays executable and is driven by the same data the Python code receives.
-/

namespace SecurityCam

/-! ## Audio engine: AudioEvent and the cooldown state machine
(audio_engine.py, AudioListener._handle_detection, lines 158-190) -/

/-- AudioEvent dataclass: timestamp in milliseconds, normalized amplitude,
human description, device id (audio_engine.py lines 27-33). Amplitudes are
modelled as rationals. -/
structure AudioEvent where
  timestamp : Int
  amplitude : ℚ
  description : String
  deviceId : String
deriving Repr, DecidableEq

/-- The cooldown-relevant mutable state of one AudioListener:
the _last_event_time field (initially 0) and the _cooldown_ms field
(2000 in __init__). -/
structure ListenerCooldownState where
  lastEventTime : Int
  cooldownMs : Int
deriving Repr, DecidableEq

/-- Default cooldown: self._cooldown_ms = 2000 (audio_engine.py line 72). -/
def defaultCooldownMs : Int := 2000

/-- The amplitude-band classification of _handle_detection
(audio_engine.py lines 169-174). -/
def describeAmplitude (amplitude : ℚ) : String :=
  if amplitude ≥ 9/10 then "Loud noise detected - possible scream or alarm"
  else if amplitude ≥ 8/10 then "High amplitude sound detected"
  else "Audio threshold exceeded"

/-- AudioListener._handle_detection (audio_engine.py lines 158-190), with the
clock read int(datetime.now().timestamp() * 1000) passed in as currentTime.
Returns the updated state and the emitted event, if any: the detection is
suppressed (state unchanged, no event) when currentTime - lastEventTime is
below the cooldown; otherwise lastEventTime is set to currentTime and an
AudioEvent is built with the banded description. -/
def handleDetection (deviceId : String) (st : ListenerCooldownState)
    (currentTime : Int) (amplitude : ℚ) :
    ListenerCooldownState × Option AudioEvent :=
  if currentTime - st.lastEventTime < st.cooldownMs then (st, none)
  else
    ({ st with lastEventTime := currentTime },
     some { timestamp := currentTime, amplitude := amplitude,
            description := describeAmplitude amplitude, deviceId := deviceId })

/-- A run of _handle_detection over a sequence of above-threshold detections,
each given as (clock reading, amplitude): the state is threaded through and
the emitted events are collected in order. -/
def runDetections (deviceId : String) (st : ListenerCooldownState) :
    List (Int × ℚ) → ListenerCooldownState × List AudioEvent
  | [] => (st, [])
  | (t, a) :: rest =>
    let step := handleDetection deviceId st t a
    let tail := runDetections deviceId step.1 rest
    (tail.1, step.2.toList ++ tail.2)

/-! ## Audio engine: stop and _cleanup (audio_engine.py lines 110-134) -/

/-- The teardown-relevant fields of one AudioListener: _running, _thread,
_stream and _pyaudio. Resources are modelled by Option Unit: some () means
the field holds a live object, none means it is None. -/
structure AudState where
  running : Bool
  thread : Option Unit
  stream : Option Unit
  pyaudio : Option Unit
deriving Repr, DecidableEq

/-- AudioListener._cleanup (audio_engine.py lines 119-134), with the failure
behaviour of the underlying release calls passed in: streamFails says whether
stop_stream/close raises, termFails whether terminate raises. Both calls sit
in try/except Exception: pass blocks, so the match arms for a raising call
return the exception flag false (swallowed) and the field is still cleared
by the assignment after the try block. The Bool result records whether an
exception escaped _cleanup. -/
def audCleanup (s : AudState) (streamFails termFails : Bool) :
    AudState × Bool :=
  let streamExc : Bool :=
    match s.stream, streamFails with
    | none, _ => false
    | some _, true => false
    | some _, false => false
  let termExc : Bool :=
    match s.pyaudio, termFails with
    | none, _ => false
    | some _, true => false
    | some _, false => false
  ({ s with stream := none, pyaudio := none }, streamExc || termExc)

/-- AudioListener.stop (audio_engine.py lines 110-117): clears _running,
joins and clears the thread, then calls _cleanup. The Bool result records
whether an exception escaped stop. -/
def audStop (s : AudState) (streamFails termFails : Bool) :
    AudState × Bool :=
  audCleanup { s with running := false, thread := none } streamFails termFails

/-- The state of an AudioListener that was constructed but never started
(audio_engine.py lines 60-63). -/
def audInit : AudState :=
  { running := false, thread := none, stream := none, pyaudio := none }

/-! ## Vision engine: CameraHandler.stop (vision_engine.py lines 104-113) -/

/-- The teardown-relevant fields of one CameraHandler: _running, _thread and
_capture. -/
structure CamState where
  running : Bool
  thread : Option Unit
  capture : Option Unit
deriving Repr, DecidableEq

/-- CameraHandler.stop (vision_engine.py lines 104-113), with the failure
behaviour of capture.release() passed in as releaseFails. _running is set
False, the thread is joined and cleared; then, if _capture is set, release()
is called with no surrounding try block: when it raises, the exception
propagates to the caller (Bool result true) and the _capture = None
assignment is never reached. -/
def camStop (s : CamState) (releaseFails : Bool) : CamState × Bool :=
  let s1 : CamState := { s with running := false, thread := none }
  match s1.capture, releaseFails with
  | none, _ => (s1, false)
  | some _, true => (s1, true)
  | some _, false => ({ s1 with capture := none }, false)

/-- The state of a CameraHandler that was constructed but never started
(vision_engine.py lines 59-61). -/
def camInit : CamState :=
  { running := false, thread := none, capture := none }

/-! ## Vision engine: frame skip in _capture_loop
(vision_engine.py lines 115-134) -/

/-- The counter values reached after each successful read in _capture_loop:
a failed read leaves the counter unchanged (the loop continues), a
successful read increments it (vision_engine.py lines 120-125). -/
def successCounters : List Bool → Nat → List Nat
  | [], _ => []
  | ret :: rest, count =>
    if ret then (count + 1) :: successCounters rest (count + 1)
    else successCounters rest count

/-- The counter values whose frames _capture_loop submits to _process_frame:
on a successful read the counter is incremented and the frame is processed
exactly when the incremented counter is divisible by frame_skip
(vision_engine.py lines 125-132). -/
def processedFrames (skip : Nat) : List Bool → Nat → List Nat
  | [], _ => []
  | ret :: rest, count =>
    if ret then
      if (count + 1) % skip = 0 then
        (count + 1) :: processedFrames skip rest (count + 1)
      else processedFrames skip rest (count + 1)
    else processedFrames skip rest count

/-! ## Vision engine: crop slicing in _process_frame
(vision_engine.py lines 154-158) -/

/-- Resolution of one slice bound for a step-1 slice in Python and numpy
basic indexing: a negative bound counts from the end of the axis (and is
floored at 0), a non-negative bound is capped at the axis length. -/
def pySliceIdx (n : Nat) (i : Int) : Nat :=
  if i < 0 then ((n : Int) + i).toNat else min i.toNat n

/-- A step-1 slice l[a:b] with the slice semantics of Python. -/
def sliceList {α : Type} (l : List α) (a b : Int) : List α :=
  let s := pySliceIdx l.length a
  let e := pySliceIdx l.length b
  (l.drop s).take (e - s)

/-- The crop frame[y1:y2, x1:x2] of _process_frame (vision_engine.py line
158): rows are sliced by y1:y2 and each kept row is sliced by x1:x2. The
integer coordinates come straight from map(int, box.xyxy[0].tolist()); no
clamping is applied before slicing. -/
def cropFrame {α : Type} (frame : List (List α)) (x1 y1 x2 y2 : Int) :
    List (List α) :=
  (sliceList frame y1 y2).map (fun row => sliceList row x1 x2)

/-- Modelled from the spec: clamping of one slice bound to the valid pixel
range 0..n, as in the sentence that crop coordinates are always clamped to
valid integer pixel ranges before slicing. -/
def specClamp (n : Nat) (i : Int) : Int := max 0 (min i (n : Int))

/-- Modelled from the spec: the crop the claim describes, in which x1, y1,
x2, y2 are first clamped so that 0 ≤ x1 ≤ x2 ≤ width and
0 ≤ y1 ≤ y2 ≤ height (width and height taken from the frame) and the frame
is sliced only afterwards. To be compared against cropFrame, which is what
_process_frame actually computes. -/
def clampedCropSpec {α : Type} (frame : List (List α)) (x1 y1 x2 y2 : Int) :
    List (List α) :=
  cropFrame frame
    (specClamp (frame.headD []).length x1)
    (specClamp frame.length y1)
    (max (specClamp (frame.headD []).length x1)
      (specClamp (frame.headD []).length x2))
    (max (specClamp frame.length y1) (specClamp frame.length y2))

/-! ## Vision engine: Detection and _encode_image
(vision_engine.py lines 25-33 and 136-201) -/

/-- Detection dataclass (vision_engine.py lines 25-33). -/
structure Detection where
  classId : Int
  className : String
  confidence : ℚ
  bbox : Int × Int × Int × Int
  croppedImageBase64 : String
deriving Repr, DecidableEq

/-- CameraHandler._encode_image (vision_engine.py lines 184-201). The fallible
library steps are passed in: cvtResult is the outcome of cv2.cvtColor plus
Image.fromarray on the crop (an RGB pixel array, or the raised error), and
jpegEncode the outcome of the JPEG save on that array (the encoded bytes, or
the raised error); b64Encode is the total base64 step. The whole body sits
in one try block whose except clause returns the empty string, so every
raised error in either step yields "" instead of propagating. -/
def encode_image (cvtResult : Except String (List (List Nat)))
    (jpegEncode : List (List Nat) → Except String (List Nat))
    (b64Encode : List Nat → String) : String :=
  match cvtResult with
  | .error _ => ""
  | .ok rgb =>
    match jpegEncode rgb with
    | .error _ => ""
    | .ok bytes => b64Encode bytes

/-- The tail of _process_frame for one qualifying box (vision_engine.py lines
164-182): the Detection record is built with the encoded crop (whatever
string _encode_image returned, the empty string included) and the callback
is invoked exactly when on_detection is set (hasCallback). The Bool result
records whether the callback was invoked with the detection. -/
def processQualifyingBox (classId : Int) (className : String)
    (confidence : ℚ) (bb : Int × Int × Int × Int) (encoded : String)
    (hasCallback : Bool) : Detection × Bool :=
  ({ classId := classId, className := className, confidence := confidence,
     bbox := bb, croppedImageBase64 := encoded }, hasCallback)

/-! ## Registries: VisionEngine.add_camera and AudioEngine.add_listener
(vision_engine.py lines 222-237, audio_engine.py lines 211-230) -/

/-- One registered handler as the registry sees it: its id, its source (the
camera URL/index, or the audio device index), the callback it was wired to
at construction time, and its running flag. σ is the source type, κ the
callback type. -/
structure RegHandler (σ : Type) (κ : Type) where
  hid : String
  source : σ
  onDetection : Option κ
  running : Bool
deriving Repr, DecidableEq

/-- A registry (VisionEngine or AudioEngine): the insertion-ordered dict of
handlers keyed by id, and the currently installed callback
(set_detection_callback / set_event_callback). -/
structure Registry (σ : Type) (κ : Type) where
  entries : List (String × RegHandler σ κ)
  callback : Option κ
deriving Repr, DecidableEq

/-- VisionEngine.add_camera / AudioEngine.add_listener: if the id is already
a key, log and return False with nothing changed; otherwise construct a
handler wired to the currently installed callback, start it (the outcome of
handler.start() is passed in as startOk, since it depends on whether the
OS-level source opens), and insert it into the dict only when start returned
True. A failed start returns False and registers nothing. -/
def Registry.add {σ κ : Type} (r : Registry σ κ) (hid : String) (src : σ)
    (startOk : Bool) : Bool × Registry σ κ :=
  if (r.entries.lookup hid).isSome then (false, r)
  else
    let h : RegHandler σ κ :=
      { hid := hid, source := src, onDetection := r.callback, running := true }
    if startOk then (true, { r with entries := r.entries ++ [(hid, h)] })
    else (false, r)

/-! ## Service connector: send_alert (service_connector.py lines 43-96) -/

/-- The outcome of the POST inside send_alert, as the surrounding try/except
structure distinguishes it: a response with a status code and body text, an
httpx.RequestError, or any other exception. -/
inductive HttpAttempt where
  | response (status : Nat) (text : String)
  | requestError (msg : String)
  | unexpectedError (msg : String)
deriving Repr, DecidableEq

/-- The alert payload built by send_alert (service_connector.py lines 67-73). -/
structure AlertPayload where
  cameraId : String
  alertType : String
  description : String
  imageBase64 : String
  timestamp : Int
deriving Repr, DecidableEq

/-- ServiceConnector.send_alert (service_connector.py lines 43-96), with the
clock read passed in as nowMs and the network outcome as attempt. When the
timestamp argument is None it defaults to nowMs; the payload is built and
the POST attempted; True is returned exactly on status 200 or 201, while any
other status, any httpx.RequestError and any unexpected exception are logged
and yield False (the except clauses swallow them). Returns the payload that
was sent together with the Bool result. -/
def send_alert (nowMs : Int) (cameraId alertType description imageBase64 : String)
    (timestamp : Option Int) (attempt : HttpAttempt) : AlertPayload × Bool :=
  let ts : Int :=
    match timestamp with
    | none => nowMs
    | some t => t
  let payload : AlertPayload :=
    { cameraId := cameraId, alertType := alertType, description := description,
      imageBase64 := imageBase64, timestamp := ts }
  match attempt with
  | .response status _ => (payload, status == 200 || status == 201)
  | .requestError _ => (payload, false)
  | .unexpectedError _ => (payload, false)

/-! ## Dispatcher: sync callbacks in main.py (lines 89-96) and the
capture-thread call sites (vision_engine.py lines 177-182,
audio_engine.py lines 186-190) -/

/-- A unit of work for the async execution context: one alert delivery
coroutine (handle_visual_detection or handle_audio_event in main.py). -/
inductive ScheduledWork where
  | visualAlert (cameraId : String) (d : Detection)
  | audioAlert (e : AudioEvent)
deriving Repr, DecidableEq

/-- The async execution context, as the list of units of work scheduled on
its event loop. -/
structure AsyncContext where
  scheduled : List ScheduledWork
deriving Repr, DecidableEq

/-- asyncio.create_task, as called by the sync callbacks in main.py: it
requires a running event loop in the calling thread. When the calling thread
runs the event loop the coroutine is scheduled on it; otherwise the call
raises RuntimeError (no running event loop) and nothing is scheduled. -/
def createTask (loopRunningInCallingThread : Bool) (w : ScheduledWork)
    (ctx : AsyncContext) : Except String AsyncContext :=
  if loopRunningInCallingThread then
    .ok { scheduled := ctx.scheduled ++ [w] }
  else .error "no running event loop"

/-- sync_visual_callback (main.py lines 89-91): the synchronous wrapper the
vision engine invokes, which calls asyncio.create_task on the coroutine
handle_visual_detection(camera_id, detection). -/
def sync_visual_callback (loopRunningInCallingThread : Bool)
    (cameraId : String) (d : Detection) (ctx : AsyncContext) :
    Except String AsyncContext :=
  createTask loopRunningInCallingThread (.visualAlert cameraId d) ctx

/-- sync_audio_callback (main.py lines 94-96): the synchronous wrapper the
audio engine invokes, which calls asyncio.create_task on the coroutine
handle_audio_event(event). -/
def sync_audio_callback (loopRunningInCallingThread : Bool)
    (e : AudioEvent) (ctx : AsyncContext) : Except String AsyncContext :=
  createTask loopRunningInCallingThread (.audioAlert e) ctx

/-- Capture threads are plain threading.Thread workers (vision_engine.py
lines 91-96, audio_engine.py lines 96-101); no asyncio event loop runs in
them. -/
def captureThreadHasLoop : Bool := false

/-- The callback invocation in CameraHandler._process_frame (vision_engine.py
lines 177-182): on_detection is called on the capture thread inside a
try/except block, so an exception raised by the callback is logged and
swallowed and the frame loop continues; the async context is left exactly as
the callback left it. -/
def invokeVisualCallbackFromCaptureThread (cameraId : String) (d : Detection)
    (ctx : AsyncContext) : AsyncContext :=
  match sync_visual_callback captureThreadHasLoop cameraId d ctx with
  | .ok ctx2 => ctx2
  | .error _ => ctx

/-! ## Theorems -/

/-- Unfolding equation for runDetections on a cons cell. -/
theorem runDetections_cons (deviceId : String) (st : ListenerCooldownState)
    (t : Int) (a : ℚ) (rest : List (Int × ℚ)) :
    runDetections deviceId st ((t, a) :: rest)
      = ((runDetections deviceId (handleDetection deviceId st t a).1 rest).1,
         (handleDetection deviceId st t a).2.toList
           ++ (runDetections deviceId (handleDetection deviceId st t a).1
                rest).2) := rfl

/-- A detection inside the cooldown window is suppressed: the state is
unchanged and no event is emitted. -/
theorem handleDetection_suppressed (deviceId : String)
    (st : ListenerCooldownState) (t : Int) (a : ℚ)
    (h : t - st.lastEventTime < st.cooldownMs) :
    handleDetection deviceId st t a = (st, none) := by
  unfold handleDetection
  rw [if_pos h]

/-- A detection outside the cooldown window is accepted: the last-event time
becomes the current time and the event is emitted with the banded
description. -/
theorem handleDetection_accepted (deviceId : String)
    (st : ListenerCooldownState) (t : Int) (a : ℚ)
    (h : ¬ t - st.lastEventTime < st.cooldownMs) :
    handleDetection deviceId st t a
      = ({ st with lastEventTime := t },
         some { timestamp := t, amplitude := a,
                description := describeAmplitude a, deviceId := deviceId }) := by
  unfold handleDetection
  rw [if_neg h]

/-- Invariant of a run of detections: every emitted event lies at least one
cooldown beyond the incoming last-event time, and the emitted events are
pairwise at least one cooldown apart (stated with the gap on the left
summand, which is what the induction maintains). -/
theorem runDetections_gap (deviceId : String) (c : Int) (hc : 0 ≤ c) :
    ∀ (ts : List (Int × ℚ)) (st : ListenerCooldownState), st.cooldownMs = c →
      (∀ e ∈ (runDetections deviceId st ts).2,
          st.lastEventTime + c ≤ e.timestamp) ∧
      List.Pairwise (fun e1 e2 => e1.timestamp + c ≤ e2.timestamp)
        (runDetections deviceId st ts).2 := by
  intro ts
  induction ts with
  | nil =>
    intro st hst
    constructor
    · intro e he
      simp [runDetections] at he
    · simp [runDetections]
  | cons p rest ih =>
    obtain ⟨t, a⟩ := p
    intro st hst
    by_cases hacc : t - st.lastEventTime < st.cooldownMs
    · rw [runDetections_cons, handleDetection_suppressed deviceId st t a hacc]
      simpa using ih st hst
    · rw [runDetections_cons, handleDetection_accepted deviceId st t a hacc]
      have hst2 :
          ({ st with lastEventTime := t } : ListenerCooldownState).cooldownMs
            = c := hst
      obtain ⟨hall, hpw⟩ := ih { st with lastEventTime := t } hst2
      have hle : st.lastEventTime + c ≤ t := by
        rw [hst] at hacc
        omega
      constructor
      · intro e he
        simp only [Option.toList_some, List.cons_append, List.nil_append,
          List.mem_cons] at he
        rcases he with rfl | he
        · simpa using hle
        · have h2 := hall e he
          simp only at h2
          omega
      · simp only [Option.toList_some, List.cons_append, List.nil_append,
          List.pairwise_cons]
        constructor
        · intro e he
          have h2 := hall e he
          simpa using h2
        · exact hpw

/-- C3: over any sequence of above-threshold detections on one listener, no
two emitted events are closer than the cooldown: a detection is suppressed
with the state untouched when fewer than cooldown_ms elapsed since the last
accepted event, and the last-event timestamp is updated (to the accepted
detection time) only on acceptance. -/
theorem audio_cooldown_spacing (deviceId : String) (last0 c : Int)
    (hc : 0 ≤ c) (ts : List (Int × ℚ)) :
    List.Pairwise (fun e1 e2 => c ≤ e2.timestamp - e1.timestamp)
      (runDetections deviceId ⟨last0, c⟩ ts).2 ∧
    (∀ (st : ListenerCooldownState) (t : Int) (a : ℚ),
        t - st.lastEventTime < st.cooldownMs →
        handleDetection deviceId st t a = (st, none)) ∧
    (∀ (st : ListenerCooldownState) (t : Int) (a : ℚ),
        ¬ t - st.lastEventTime < st.cooldownMs →
        (handleDetection deviceId st t a).1.lastEventTime = t) := by
  refine ⟨?_, ?_, ?_⟩
  · have hpw := (runDetections_gap deviceId c hc ts ⟨last0, c⟩ rfl).2
    exact hpw.imp (fun hab => by omega)
  · intro st t a h
    exact handleDetection_suppressed deviceId st t a h
  · intro st t a h
    rw [handleDetection_accepted deviceId st t a h]

/-- C3 witness: with cooldown 2000 ms and detections at times 2500, 3000 and
4600, the accepted events (2500 and 4600; 3000 is suppressed) are pairwise
at least 2000 ms apart. -/
theorem audio_cooldown_spacing_witness :
    (0 : Int) ≤ 2000 ∧
    List.Pairwise (fun e1 e2 => (2000 : Int) ≤ e2.timestamp - e1.timestamp)
      (runDetections "mic" ⟨0, 2000⟩
        [(2500, 95/100), (3000, 9/10), (4600, 8/10)]).2 :=
  ⟨by norm_num, (audio_cooldown_spacing "mic" 0 2000 (by norm_num) _).1⟩

/-- C5: adding under an identifier already present returns False and leaves
the registry, the existing handler included, unchanged; adding a fresh
identifier creates a handler wired to the currently installed callback and
registers it exactly when start succeeded, so a failed start leaves no entry
under the identifier. -/
theorem registry_add_spec {σ κ : Type} (r : Registry σ κ) (hid : String)
    (src : σ) (startOk : Bool) :
    (∀ h0, r.entries.lookup hid = some h0 →
        r.add hid src startOk = (false, r) ∧
        (r.add hid src startOk).2.entries.lookup hid = some h0) ∧
    (r.entries.lookup hid = none → startOk = true →
        r.add hid src startOk
          = (true, ⟨r.entries
              ++ [(hid, ⟨hid, src, r.callback, true⟩)], r.callback⟩)) ∧
    (r.entries.lookup hid = none → startOk = false →
        r.add hid src startOk = (false, r) ∧
        (r.add hid src startOk).2.entries.lookup hid = none) := by
  obtain ⟨entries, cb⟩ := r
  refine ⟨?_, ?_, ?_⟩
  · intro h0 hl
    have hs : (List.lookup hid entries).isSome = true := by
      rw [hl]
      rfl
    constructor
    · simp [Registry.add, hs]
    · simp [Registry.add, hs, hl]
  · intro hl hs
    subst hs
    simp [Registry.add, hl]
  · intro hl hs
    subst hs
    simp [Registry.add, hl]

/-- C5 witness: re-adding camera id cam1 with a different source fails and
leaves the original handler (source included) registered; adding a fresh id
with a successful start registers a handler wired to the installed callback;
adding a fresh id whose start fails registers nothing. -/
theorem registry_add_spec_witness :
    Registry.add
        (⟨[("cam1", ⟨"cam1", "rtsp://a", some 7, true⟩)], some 7⟩ :
          Registry String Nat) "cam1" "rtsp://b" true
      = (false, ⟨[("cam1", ⟨"cam1", "rtsp://a", some 7, true⟩)], some 7⟩) ∧
    Registry.add (⟨[], some 7⟩ : Registry String Nat) "cam2" "rtsp://b" true
      = (true, ⟨[("cam2", ⟨"cam2", "rtsp://b", some 7, true⟩)], some 7⟩) ∧
    Registry.add (⟨[], some 7⟩ : Registry String Nat) "cam3" "rtsp://c" false
      = (false, ⟨[], some 7⟩) := by
  have h1 := @registry_add_spec String Nat
    ⟨[("cam1", ⟨"cam1", "rtsp://a", some 7, true⟩)], some 7⟩ "cam1" "rtsp://b"
    true
  have h2 := @registry_add_spec String Nat ⟨[], some 7⟩ "cam2" "rtsp://b" true
  have h3 := @registry_add_spec String Nat ⟨[], some 7⟩ "cam3" "rtsp://c" false
  exact ⟨(h1.1 ⟨"cam1", "rtsp://a", some 7, true⟩ rfl).1, h2.2.1 rfl rfl,
    (h3.2.2 rfl rfl).1⟩

/-- Clamping a slice bound into the valid range before resolving it changes
nothing when the bound is non-negative: a non-negative bound is capped at
the axis length either way. -/
theorem pySliceIdx_specClamp (n : Nat) (i : Int) (hi : 0 ≤ i) :
    pySliceIdx n (specClamp n i) = pySliceIdx n i := by
  unfold pySliceIdx specClamp
  split_ifs <;> omega

/-- C2 counterexample: the crop coordinates are not clamped before slicing.
On a 4 by 4 frame with the box (x1, y1, x2, y2) = (-1, 0, 2, 2), the code
slices columns from index -1, which Python resolves to column 3 (counting
from the end), producing two empty rows, while the clamped crop the claim
describes keeps columns 0 and 1 of rows 0 and 1. -/
theorem crop_clamp_counterexample :
    ¬ (cropFrame
          [[0, 1, 2, 3], [10, 11, 12, 13], [20, 21, 22, 23], [30, 31, 32, 33]]
          (-1) 0 2 2
        = clampedCropSpec
          [[0, 1, 2, 3], [10, 11, 12, 13], [20, 21, 22, 23], [30, 31, 32, 33]]
          (-1) 0 2 2) := by
  decide

/-- C2 amended: no clamping is applied before slicing; the slice semantics of
Python cap an over-large non-negative bound at the frame dimension but send
a negative bound to the end of the axis, so the crop agrees with the clamped
crop of the claim exactly on boxes whose coordinates are non-negative and
ordered (on a rectangular frame). -/
theorem crop_clamped_for_nonneg {α : Type} (frame : List (List α))
    (x1 y1 x2 y2 : Int) (hx1 : 0 ≤ x1) (hy1 : 0 ≤ y1) (hx12 : x1 ≤ x2)
    (hy12 : y1 ≤ y2)
    (hrect : ∀ row ∈ frame, row.length = (frame.headD []).length) :
    cropFrame frame x1 y1 x2 y2 = clampedCropSpec frame x1 y1 x2 y2 := by
  have hx2 : 0 ≤ x2 := le_trans hx1 hx12
  have hy2 : 0 ≤ y2 := le_trans hy1 hy12
  have hcx : specClamp (frame.headD []).length x1
      ≤ specClamp (frame.headD []).length x2 :=
    max_le_max le_rfl (min_le_min hx12 le_rfl)
  have hcy : specClamp frame.length y1 ≤ specClamp frame.length y2 :=
    max_le_max le_rfl (min_le_min hy12 le_rfl)
  unfold clampedCropSpec
  rw [max_eq_right hcx, max_eq_right hcy]
  unfold cropFrame
  have hrows : sliceList frame (specClamp frame.length y1)
      (specClamp frame.length y2) = sliceList frame y1 y2 := by
    unfold sliceList
    rw [pySliceIdx_specClamp frame.length y1 hy1,
      pySliceIdx_specClamp frame.length y2 hy2]
  rw [hrows]
  refine List.map_congr_left ?_
  intro row hrow
  have hmem : row ∈ frame := by
    have h1 : row ∈ frame.drop (pySliceIdx frame.length y1) :=
      List.take_subset _ _ hrow
    exact List.drop_subset _ _ h1
  have hlen : row.length = (frame.headD []).length := hrect row hmem
  unfold sliceList
  rw [hlen, pySliceIdx_specClamp (frame.headD []).length x1 hx1,
    pySliceIdx_specClamp (frame.headD []).length x2 hx2]

/-- C2 amended witness: on a concrete 3 by 3 frame with the non-negative box
(0, 1, 2, 3), the direct slice of the code and the clamped crop coincide. -/
theorem crop_clamped_for_nonneg_witness :
    (0 : Int) ≤ 0 ∧ (0 : Int) ≤ 1 ∧ (0 : Int) ≤ 2 ∧ (1 : Int) ≤ 3 ∧
    cropFrame [[1, 2, 3], [4, 5, 6], [7, 8, 9]] 0 1 2 3
      = clampedCropSpec [[1, 2, 3], [4, 5, 6], [7, 8, 9]] 0 1 2 3 :=
  ⟨by norm_num, by norm_num, by norm_num, by norm_num,
    crop_clamped_for_nonneg [[1, 2, 3], [4, 5, 6], [7, 8, 9]] 0 1 2 3
      (by norm_num) (by norm_num) (by norm_num) (by norm_num) (by decide)⟩

/-- C1: the claim says every detection or audio callback fired on a capture
thread is translated into a scheduled unit of work on the async execution
context and that capture threads never call async-only APIs directly. The
code does the opposite: sync_visual_callback and sync_audio_callback call
asyncio.create_task directly on the capture thread, where no event loop is
running, so the call raises RuntimeError, the try/except around the callback
swallows it, and nothing is ever scheduled on the async context. -/
theorem captureThread_callback_schedules_nothing (cameraId : String)
    (d : Detection) (e : AudioEvent) (ctx : AsyncContext) :
    sync_visual_callback captureThreadHasLoop cameraId d ctx
        = Except.error "no running event loop" ∧
    sync_audio_callback captureThreadHasLoop e ctx
        = Except.error "no running event loop" ∧
    invokeVisualCallbackFromCaptureThread cameraId d ctx = ctx :=
  ⟨rfl, rfl, rfl⟩

/-- C4: send_alert returns True iff the POST yielded status 200 or 201; a 503
response, a request error and an unexpected exception all return False
without raising; an omitted timestamp defaults to the current time in
milliseconds, a given timestamp is passed through. -/
theorem send_alert_spec (nowMs : Int) (cid aty desc img : String)
    (ts : Option Int) (attempt : HttpAttempt) (t : Int) (txt : String) :
    ((send_alert nowMs cid aty desc img ts attempt).2 = true ↔
      (∃ body, attempt = HttpAttempt.response 200 body ∨
               attempt = HttpAttempt.response 201 body)) ∧
    (send_alert nowMs cid aty desc img ts (HttpAttempt.response 503 txt)).2
        = false ∧
    (send_alert nowMs cid aty desc img ts (HttpAttempt.requestError txt)).2
        = false ∧
    (send_alert nowMs cid aty desc img ts (HttpAttempt.unexpectedError txt)).2
        = false ∧
    (send_alert nowMs cid aty desc img none attempt).1.timestamp = nowMs ∧
    (send_alert nowMs cid aty desc img (some t) attempt).1.timestamp = t := by
  refine ⟨?_, rfl, rfl, rfl, ?_, ?_⟩
  · cases attempt with
    | response s body =>
      simp only [send_alert, Bool.or_eq_true, beq_iff_eq,
        HttpAttempt.response.injEq]
      constructor
      · rintro (rfl | rfl)
        · exact ⟨body, Or.inl ⟨rfl, rfl⟩⟩
        · exact ⟨body, Or.inr ⟨rfl, rfl⟩⟩
      · rintro ⟨b, ⟨rfl, rfl⟩ | ⟨rfl, rfl⟩⟩ <;> simp
    | requestError m => simp [send_alert]
    | unexpectedError m => simp [send_alert]
  · cases attempt <;> rfl
  · cases attempt <;> rfl

/-- C6: in the capture loop every successfully read frame increments the
counter and the frame is submitted to inference exactly when the incremented
counter is divisible by frame_skip (1-based counting); with frame_skip = 2
and five successfully read frames, exactly the frames with counters 2 and 4
are processed. -/
theorem frame_skip_spec (skip : Nat) (reads : List Bool) (count0 : Nat) :
    processedFrames skip reads count0
        = (successCounters reads count0).filter (fun c => c % skip == 0) ∧
    processedFrames 2 [true, true, true, true, true] 0 = [2, 4] := by
  constructor
  · induction reads generalizing count0 with
    | nil => rfl
    | cons r rest ih =>
      cases r with
      | false => simpa [processedFrames, successCounters] using ih count0
      | true =>
        by_cases h : (count0 + 1) % skip = 0 <;>
          simp [processedFrames, successCounters, List.filter_cons, h, ih]
  · rfl

/-- C7: for both handler variants, stopping twice in a row gives the same end
state as stopping once (running flag false, resources released, thread
cleared), and stop is safe on a handler that was never started. For the
camera variant the second stop never even attempts a release, because the
first one cleared the capture field, so the repeated stop is stated for an
arbitrary failure behaviour of the second release; the audio variant clears
its fields whatever the release calls do. -/
theorem stop_idempotent :
    (∀ (s : CamState) (f : Bool),
        camStop (camStop s false).1 f = camStop s false) ∧
    (∀ (s : AudState) (f1 f2 g1 g2 : Bool),
        audStop (audStop s f1 f2).1 g1 g2 = audStop s f1 f2) ∧
    camStop camInit false = (camInit, false) ∧
    (∀ f1 f2 : Bool, audStop audInit f1 f2 = (audInit, false)) := by
  refine ⟨?_, ?_, rfl, ?_⟩
  · intro s f
    cases s with
    | mk r t c => cases c <;> cases f <;> rfl
  · intro s f1 f2 g1 g2
    cases s with
    | mk r t st p => cases st <;> cases p <;> cases f1 <;> cases f2 <;> rfl
  · intro f1 f2
    cases f1 <;> cases f2 <;> rfl

/-- C8: an accepted audio detection is described according to its amplitude
band: at least 0.9 gives the scream/alarm text, at least 0.8 but below 0.9
the high-amplitude text, and anything below 0.8 the generic
threshold-exceeded text. -/
theorem audio_description_bands (deviceId : String)
    (st : ListenerCooldownState) (t : Int) (a : ℚ)
    (st2 : ListenerCooldownState) (e : AudioEvent)
    (h : handleDetection deviceId st t a = (st2, some e)) :
    (9/10 ≤ a → e.description = "Loud noise detected - possible scream or alarm") ∧
    (8/10 ≤ a ∧ a < 9/10 → e.description = "High amplitude sound detected") ∧
    (a < 8/10 → e.description = "Audio threshold exceeded") := by
  unfold handleDetection at h
  split at h
  · exact absurd (congrArg Prod.snd h) (by simp)
  · simp only [Prod.mk.injEq, Option.some.injEq] at h
    obtain ⟨-, rfl⟩ := h
    refine ⟨?_, ?_, ?_⟩
    · intro hb
      show describeAmplitude a = _
      unfold describeAmplitude
      rw [if_pos (by exact hb)]
    · rintro ⟨hb1, hb2⟩
      show describeAmplitude a = _
      unfold describeAmplitude
      rw [if_neg (by exact not_le.mpr hb2), if_pos (by exact hb1)]
    · intro hb
      show describeAmplitude a = _
      unfold describeAmplitude
      rw [if_neg (by exact not_le.mpr (by linarith)),
        if_neg (by exact not_le.mpr hb)]

/-- C8 witness: with last event at time 0, cooldown 2000 ms and a detection
at time 5000 with amplitude 0.72, the detection is accepted and the emitted
event carries the generic threshold-exceeded description. -/
theorem audio_description_bands_witness :
    handleDetection "mic" { lastEventTime := 0, cooldownMs := 2000 } 5000
        (72/100)
      = ({ lastEventTime := 5000, cooldownMs := 2000 },
         some { timestamp := 5000, amplitude := 72/100,
                description := "Audio threshold exceeded", deviceId := "mic" }) ∧
    (72/100 : ℚ) < 8/10 ∧
    ({ timestamp := 5000, amplitude := 72/100,
       description := "Audio threshold exceeded",
       deviceId := "mic" } : AudioEvent).description
      = "Audio threshold exceeded" := by
  refine ⟨?_, by norm_num, ?_⟩
  · unfold handleDetection describeAmplitude
    norm_num
  · exact (audio_description_bands "mic" ⟨0, 2000⟩ 5000 (72/100) ⟨5000, 2000⟩ _
      (by unfold handleDetection describeAmplitude; norm_num)).2.2 (by norm_num)

/-- C9 counterexample: the claim says every handler variant swallows
exceptions thrown while releasing the capture resource in stop. For the
camera variant this is false at a concrete started handler: when
capture.release() raises, CameraHandler.stop propagates the exception
(second component true). -/
theorem camera_stop_release_counterexample :
    ¬ ((camStop ⟨true, some (), some ()⟩ true).2 = false) := by
  decide

/-- C9 amended: AudioListener.stop swallows any exception thrown while
releasing its resources (stream stop/close, PyAudio terminate) and still
clears them, so the registry sweep tolerates a failing audio teardown;
CameraHandler.stop does not guard capture.release(), so stop propagates an
exception exactly when a capture resource is held and its release fails. -/
theorem stop_release_error_handling (s : AudState) (f1 f2 : Bool)
    (c : CamState) :
    (audStop s f1 f2).2 = false ∧
    (audStop s f1 f2).1.stream = none ∧
    (audStop s f1 f2).1.pyaudio = none ∧
    (audStop s f1 f2).1.running = false ∧
    (camStop c true).2 = c.capture.isSome := by
  refine ⟨?_, rfl, rfl, rfl, ?_⟩
  · cases s with
    | mk r t st p => cases st <;> cases p <;> cases f1 <;> cases f2 <;> rfl
  · cases c with
    | mk r t cap => cases cap <;> rfl

/-- C10: _encode_image is total: a raised error in the colour-conversion step
or the JPEG step yields the empty string instead of propagating, a
successful pipeline yields the base64 text, and the qualifying-box path
still builds the Detection around whatever string came back (the empty
string included) and invokes the callback. -/
theorem encode_image_spec (cvt : Except String (List (List Nat)))
    (jpeg : List (List Nat) → Except String (List Nat))
    (b64 : List Nat → String) (classId : Int) (cn : String) (conf : ℚ)
    (bb : Int × Int × Int × Int) :
    (∀ msg, cvt = Except.error msg → encode_image cvt jpeg b64 = "") ∧
    (∀ rgb msg, cvt = Except.ok rgb → jpeg rgb = Except.error msg →
        encode_image cvt jpeg b64 = "") ∧
    (∀ rgb bytes, cvt = Except.ok rgb → jpeg rgb = Except.ok bytes →
        encode_image cvt jpeg b64 = b64 bytes) ∧
    (processQualifyingBox classId cn conf bb (encode_image cvt jpeg b64)
        true).1.croppedImageBase64 = encode_image cvt jpeg b64 ∧
    (processQualifyingBox classId cn conf bb (encode_image cvt jpeg b64)
        true).2 = true := by
  refine ⟨?_, ?_, ?_, rfl, rfl⟩
  · rintro msg rfl
    rfl
  · rintro rgb msg rfl hj
    simp [encode_image, hj]
  · rintro rgb bytes rfl hj
    simp [encode_image, hj]

/-- C10 witness: with a colour conversion that raises (as cv2.cvtColor does
on an empty crop), _encode_image returns the empty string and the detection
is still dispatched to the callback with the empty image. -/
theorem encode_image_spec_witness :
    encode_image (Except.error "cv2.error: bad array")
        (fun _ => Except.error "save failed") (fun _ => "AAAA") = "" ∧
    (processQualifyingBox 0 "person" (6/10) (0, 0, 1, 1)
        (encode_image (Except.error "cv2.error: bad array")
          (fun _ => Except.error "save failed") (fun _ => "AAAA"))
        true).2 = true := by
  have h := encode_image_spec (Except.error "cv2.error: bad array")
    (fun _ => Except.error "save failed") (fun _ => "AAAA") 0 "person" (6/10)
    (0, 0, 1, 1)
  exact ⟨h.1 "cv2.error: bad array" rfl, h.2.2.2.2⟩

end SecurityCam
